import Mathlib

/-!
# Verification of Reproduce_8K_Tearing (main.cpp)

A shallow embedding of the deterministic parts of `main.cpp` of the
Reproduce_8K_Tearing repository, together with theorems settling the
specification claims about it.

Modelling conventions:
* `GLfloat`/`float`/`double` arithmetic is modelled exactly over `ℚ`
  (the computations under study are small products, sums and divisions);
  the transcendental functions (`tan` together with the literal constant
  `Pi`) appearing in `createProjectionMatrix` are modelled over `ℝ`,
  with the float literal `Pi = 3.14159265358979323846f` idealised as the
  real number `π`, matching the spec's "to floating-point tolerance".
* `rand()` is modelled by an arbitrary stream `rng : ℕ → ℕ` of values,
  with the C guarantee `rng k ≤ RAND_MAX` as an explicit hypothesis
  where a claim needs it; the k-th call of `rand()` reads `rng k`.
* `(size_t)sqrt(q)` on a nonnegative integer `q` is modelled by
  `Nat.sqrt q` (truncation of the correctly rounded square root).
* OpenGL/GLFW calls are modelled by their effect on explicit state
  (buffer-allocation counters, window/monitor bookkeeping); values the
  environment returns (window creation success, monitor count, GLEW
  status) are fields of an `Env` record.
-/

namespace Tearing

/-- `RAND_MAX` of the target platform (glibc): `2^31 - 1`. -/
def RAND_MAX : ℕ := 2147483647

/-! ## MeshPlane construction (main.cpp, `MeshPlane::MeshPlane`)

The constructor computes `numQuads = numTriangles / 2` (integer
division), `numQuadsPerEdge = (size_t)sqrt(numQuads)` clamped below
by 1, and then for each grid cell `(i, j)` (row-major, `i` outer)
pushes 18 colour floats (6 vertices × 3 components, all scaled by one
per-quad random brightness) onto `colorBufferData` and 18 position
floats onto `vertexBufferData`. -/

/-- `numQuadsPerEdge` as computed by the constructor:
`(size_t)sqrt(numTriangles / 2)`, with a minimum of 1. -/
def numQuadsPerEdge (numTriangles : ℕ) : ℕ :=
  let numQuads := numTriangles / 2
  let n := Nat.sqrt numQuads
  if n < 1 then 1 else n

/-- The per-quad brightness `0.5f + rand() * 0.5f / RAND_MAX`, where the
quad's `rand()` call is the `k`-th of the stream. -/
def brightness (rng : ℕ → ℕ) (k : ℕ) : ℚ :=
  1/2 + (rng k : ℚ) * (1/2) / (RAND_MAX : ℚ)

/-- The 18 colour floats pushed for one quad: the loop over
`c < numTris * numVerts = 6` each time pushes `brightness * color[i]`
for `i < numColors = 3`. -/
def quadColors (b : ℚ) (color : Fin 3 → ℚ) : List ℚ :=
  (List.range 6).flatMap fun _ => List.ofFn fun i : Fin 3 => b * color i

/-- The 18 position floats pushed for the quad at grid cell `(i, j)`
of an `n × n` grid with half-extent `scale`: two triangles covering
`[minX, maxX] × [minY, maxY]` at `Z = 0`. -/
def quadVertices (scale : ℚ) (n : ℕ) (i j : ℕ) : List ℚ :=
  let Z : ℚ := 0
  let minX := -scale + (i : ℚ) * (2 * scale) / (n : ℚ)
  let maxX := -scale + ((i : ℚ) + 1) * (2 * scale) / (n : ℚ)
  let minY := -scale + (j : ℚ) * (2 * scale) / (n : ℚ)
  let maxY := -scale + ((j : ℚ) + 1) * (2 * scale) / (n : ℚ)
  [minX, maxY, Z,
   minX, minY, Z,
   maxX, minY, Z,
   maxX, maxY, Z,
   minX, maxY, Z,
   maxX, minY, Z]

/-- The CPU-side data the `MeshPlane` constructor builds. -/
structure MeshPlane where
  vertexBufferData : List ℚ
  colorBufferData : List ℚ
  deriving DecidableEq

/-- The `MeshPlane` constructor.  The double loop runs `i` outer and
`j` inner, so the quad at `(i, j)` performs the `(i * n + j)`-th call
of `rand()`; colours and positions go to their two separate vectors in
that same quad order. -/
def mkMeshPlane (rng : ℕ → ℕ) (scale : ℚ) (numTriangles : ℕ)
    (color : Fin 3 → ℚ) : MeshPlane :=
  let n := numQuadsPerEdge numTriangles
  { vertexBufferData :=
      (List.range n).flatMap fun i =>
        (List.range n).flatMap fun j => quadVertices scale n i j
    colorBufferData :=
      (List.range n).flatMap fun i =>
        (List.range n).flatMap fun j =>
          quadColors (brightness rng (i * n + j)) color }

/-- `MeshPlane::draw` passes `vertexBufferData.size()` — the number of
floats, not of vertices — as the `count` argument of `glDrawArrays`. -/
def MeshPlane.drawCount (m : MeshPlane) : ℕ := m.vertexBufferData.length

/-- The number of 3-component vertices actually stored in the vertex
buffer. -/
def MeshPlane.numVertices (m : MeshPlane) : ℕ := m.vertexBufferData.length / 3

/-! ### Length lemmas for the generated buffers -/

theorem length_quadColors (b : ℚ) (color : Fin 3 → ℚ) :
    (quadColors b color).length = 18 := by
  rfl

theorem length_quadVertices (scale : ℚ) (n i j : ℕ) :
    (quadVertices scale n i j).length = 18 := by
  simp [quadVertices]

theorem length_flatMap_const {α β : Type} (l : List α) (f : α → List β)
    (c : ℕ) (hf : ∀ a ∈ l, (f a).length = c) :
    (l.flatMap f).length = c * l.length := by
  induction l with
  | nil => simp
  | cons x xs ih =>
    simp only [List.flatMap_cons, List.length_append,
      hf x (List.mem_cons_self x xs),
      ih fun a ha => hf a (List.mem_cons_of_mem x ha), List.length_cons]
    ring

theorem vertex_length (rng : ℕ → ℕ) (scale : ℚ) (numTriangles : ℕ)
    (color : Fin 3 → ℚ) :
    (mkMeshPlane rng scale numTriangles color).vertexBufferData.length
      = 18 * (numQuadsPerEdge numTriangles) ^ 2 := by
  unfold mkMeshPlane
  rw [length_flatMap_const _ _ (18 * numQuadsPerEdge numTriangles)]
  · simp [sq, Nat.mul_assoc]
  · intro a _
    rw [length_flatMap_const _ _ 18]
    · simp
    · intro b _; exact length_quadVertices ..

theorem color_length (rng : ℕ → ℕ) (scale : ℚ) (numTriangles : ℕ)
    (color : Fin 3 → ℚ) :
    (mkMeshPlane rng scale numTriangles color).colorBufferData.length
      = 18 * (numQuadsPerEdge numTriangles) ^ 2 := by
  unfold mkMeshPlane
  rw [length_flatMap_const _ _ (18 * numQuadsPerEdge numTriangles)]
  · simp [sq, Nat.mul_assoc]
  · intro a _
    rw [length_flatMap_const _ _ 18]
    · simp
    · intro b _; exact length_quadColors ..

theorem one_le_numQuadsPerEdge (numTriangles : ℕ) :
    1 ≤ numQuadsPerEdge numTriangles := by
  unfold numQuadsPerEdge
  dsimp only
  split <;> omega

theorem numQuadsPerEdge_eq_sqrt {T : ℕ} (h : 2 ≤ T) :
    numQuadsPerEdge T = Nat.sqrt (T / 2) := by
  unfold numQuadsPerEdge
  dsimp only
  have h1 : 1 ≤ T / 2 := by omega
  have : 1 ≤ Nat.sqrt (T / 2) := by
    rw [Nat.le_sqrt]; omega
  split <;> omega

/-! ### Block structure of the generated buffers -/

theorem flatMap_range_block {α : Type} (f : ℕ → List α) (c : ℕ)
    (hf : ∀ k, (f k).length = c) :
    ∀ n q, q < n →
      (((List.range n).flatMap f).drop (c * q)).take c = f q := by
  intro n
  induction n generalizing f with
  | zero => intro q hq; omega
  | succ m ih =>
    intro q hq
    rw [List.range_succ_eq_map, List.flatMap_cons, List.flatMap_map]
    match q with
    | 0 =>
      rw [Nat.mul_zero, List.drop_zero]
      calc (f 0 ++ (List.range m).flatMap fun a => f (Nat.succ a)).take c
          = (f 0 ++ (List.range m).flatMap fun a => f (Nat.succ a)).take
              ((f 0).length + 0) := by rw [hf 0, Nat.add_zero]
        _ = f 0 ++ List.take 0 ((List.range m).flatMap fun a => f (Nat.succ a)) :=
            List.take_append 0
        _ = f 0 := by simp
    | q' + 1 =>
      have hdrop : c * (q' + 1) = (f 0).length + c * q' := by
        rw [hf 0]; ring
      rw [hdrop, List.drop_append]
      exact ih (fun a => f (Nat.succ a)) (fun k => hf (Nat.succ k)) q' (by omega)

theorem flatMap_range_mul {α : Type} (n m : ℕ) (g : ℕ → List α) :
    (List.range (n * m)).flatMap g
      = (List.range n).flatMap fun i =>
          (List.range m).flatMap fun j => g (i * m + j) := by
  induction n with
  | zero => simp
  | succ k ih =>
    have hnm : (k + 1) * m = k * m + m := by ring
    rw [hnm, List.range_add, List.flatMap_append, ih, List.range_succ,
      List.flatMap_append, List.flatMap_map]
    simp only [List.flatMap_cons, List.flatMap_nil, List.append_nil]

/-- The colour buffer, rewritten as one block of 18 floats per quad in
row-major quad order `q = i * n + j`, the same order in which the
constructor's `rand()` calls occur. -/
theorem color_buffer_blocks (rng : ℕ → ℕ) (scale : ℚ) (T : ℕ)
    (color : Fin 3 → ℚ) :
    (mkMeshPlane rng scale T color).colorBufferData
      = (List.range (numQuadsPerEdge T * numQuadsPerEdge T)).flatMap
          fun q => quadColors (brightness rng q) color := by
  show (List.range (numQuadsPerEdge T)).flatMap
      (fun i => (List.range (numQuadsPerEdge T)).flatMap
        fun j => quadColors (brightness rng (i * numQuadsPerEdge T + j)) color)
    = _
  exact (flatMap_range_mul (numQuadsPerEdge T) (numQuadsPerEdge T)
    fun q => quadColors (brightness rng q) color).symm

theorem grid_index_inj {n i j i' j' : ℕ} (hj : j < n) (hj' : j' < n)
    (h : i * n + j = i' * n + j') : i = i' ∧ j = j' := by
  have hi : i = i' := by
    by_contra hne
    rcases Nat.lt_or_ge i i' with hlt | hge
    · have h1 : i * n + j < i' * n + j' := by
        have h2 : (i + 1) * n ≤ i' * n := Nat.mul_le_mul_right n hlt
        have h3 : i * n + j < (i + 1) * n := by
          have : (i + 1) * n = i * n + n := by ring
          omega
        omega
      omega
    · have hlt : i' < i := by omega
      have h1 : i' * n + j' < i * n + j := by
        have h2 : (i' + 1) * n ≤ i * n := Nat.mul_le_mul_right n hlt
        have h3 : i' * n + j' < (i' + 1) * n := by
          have : (i' + 1) * n = i' * n + n := by ring
          omega
        omega
      omega
  subst hi
  omega

/-! ## Claim theorems about mesh generation -/

/-- C1: for every requested triangle count `numTriangles ≥ 2` and every
scale, the constructor uses `floor(sqrt(numTriangles / 2))` quads per
edge (minimum 1), which is the largest square grid of two-triangle
quads whose triangle count does not exceed `numTriangles`; it emits
exactly `6 * quadsPerEdge^2` vertices (`18 * quadsPerEdge^2` position
floats), and for every input (including `numTriangles < 2`) the colour
array has exactly the length of the vertex array. -/
theorem claim_C1 (rng : ℕ → ℕ) (scale : ℚ) (color : Fin 3 → ℚ)
    (T : ℕ) (h : 2 ≤ T) :
    numQuadsPerEdge T = Nat.sqrt (T / 2) ∧
    1 ≤ numQuadsPerEdge T ∧
    2 * (numQuadsPerEdge T) ^ 2 ≤ T ∧
    (∀ m : ℕ, 2 * m ^ 2 ≤ T → m ≤ numQuadsPerEdge T) ∧
    (mkMeshPlane rng scale T color).numVertices
      = 6 * (numQuadsPerEdge T) ^ 2 ∧
    (mkMeshPlane rng scale T color).vertexBufferData.length
      = 18 * (numQuadsPerEdge T) ^ 2 ∧
    (∀ (rng' : ℕ → ℕ) (scale' : ℚ) (T' : ℕ) (color' : Fin 3 → ℚ),
      (mkMeshPlane rng' scale' T' color').colorBufferData.length
        = (mkMeshPlane rng' scale' T' color').vertexBufferData.length) := by
  have hs := numQuadsPerEdge_eq_sqrt h
  refine ⟨hs, one_le_numQuadsPerEdge T, ?_, ?_, ?_, vertex_length .., ?_⟩
  · rw [hs]
    have h1 : Nat.sqrt (T / 2) ^ 2 ≤ T / 2 := Nat.sqrt_le' (T / 2)
    omega
  · intro m hm
    rw [hs, Nat.le_sqrt']
    omega
  · unfold MeshPlane.numVertices
    rw [vertex_length]
    omega
  · intro rng' scale' T' color'
    rw [vertex_length, color_length]

/-- Witness for C1 at `numTriangles = 8` (grid of 2×2 quads). -/
theorem claim_C1_witness :
    numQuadsPerEdge 8 = Nat.sqrt (8 / 2) ∧
    1 ≤ numQuadsPerEdge 8 ∧
    2 * (numQuadsPerEdge 8) ^ 2 ≤ 8 ∧
    (∀ m : ℕ, 2 * m ^ 2 ≤ 8 → m ≤ numQuadsPerEdge 8) ∧
    (mkMeshPlane (fun _ => 0) 1 8 (fun _ => 1)).numVertices
      = 6 * (numQuadsPerEdge 8) ^ 2 ∧
    (mkMeshPlane (fun _ => 0) 1 8 (fun _ => 1)).vertexBufferData.length
      = 18 * (numQuadsPerEdge 8) ^ 2 ∧
    (∀ (rng' : ℕ → ℕ) (scale' : ℚ) (T' : ℕ) (color' : Fin 3 → ℚ),
      (mkMeshPlane rng' scale' T' color').colorBufferData.length
        = (mkMeshPlane rng' scale' T' color').vertexBufferData.length) :=
  claim_C1 (fun _ => 0) 1 (fun _ => 1) 8 (by decide)

/-- C10 (implicit): `draw()` passes the float count of the vertex
array — three times the number of vertices generated — as the
`glDrawArrays` vertex count: for a grid of `k` quads per edge the draw
requests `18 * k^2` vertices while the buffers hold only `6 * k^2`, so
the requested range always extends past the end of the buffers (the
mesh is never empty, `k ≥ 1`). -/
theorem claim_C10 (rng : ℕ → ℕ) (scale : ℚ) (T : ℕ) (color : Fin 3 → ℚ) :
    (mkMeshPlane rng scale T color).drawCount
      = 18 * (numQuadsPerEdge T) ^ 2 ∧
    (mkMeshPlane rng scale T color).numVertices
      = 6 * (numQuadsPerEdge T) ^ 2 ∧
    (mkMeshPlane rng scale T color).drawCount
      = 3 * (mkMeshPlane rng scale T color).numVertices ∧
    (mkMeshPlane rng scale T color).numVertices
      < (mkMeshPlane rng scale T color).drawCount := by
  have hv := vertex_length rng scale T color
  have h1 := one_le_numQuadsPerEdge T
  unfold MeshPlane.drawCount MeshPlane.numVertices
  have hk : 1 ≤ (numQuadsPerEdge T) ^ 2 := Nat.one_le_pow _ _ (by omega)
  omega

/-- C7: each quad draws exactly one brightness multiplier (the quad at
grid cell `(i, j)` of an `n`-quad edge reads stream position
`i * n + j`, and distinct cells read distinct positions); the value
lies in `[0.5, 1]` whenever the `rand()` stream obeys
`rng k ≤ RAND_MAX`; and the multiplier is applied uniformly: the 18
colour floats of quad `q` are six identical copies of the triple
`(b * color 0, b * color 1, b * color 2)` with `b` the quad's
brightness. -/
theorem claim_C7 (rng : ℕ → ℕ) (scale : ℚ) (T : ℕ) (color : Fin 3 → ℚ)
    (hr : ∀ k, rng k ≤ RAND_MAX) :
    (∀ k, 1/2 ≤ brightness rng k ∧ brightness rng k ≤ 1) ∧
    ((mkMeshPlane rng scale T color).colorBufferData
      = (List.range (numQuadsPerEdge T * numQuadsPerEdge T)).flatMap
          fun q => quadColors (brightness rng q) color) ∧
    (∀ q, q < numQuadsPerEdge T * numQuadsPerEdge T →
      (((mkMeshPlane rng scale T color).colorBufferData.drop (18 * q)).take 18)
        = quadColors (brightness rng q) color) ∧
    (∀ (b : ℚ) (col : Fin 3 → ℚ),
      quadColors b col
        = (List.replicate 6 (List.ofFn fun i : Fin 3 => b * col i)).flatten) ∧
    (∀ i j i' j', j < numQuadsPerEdge T → j' < numQuadsPerEdge T →
      i * numQuadsPerEdge T + j = i' * numQuadsPerEdge T + j' →
      i = i' ∧ j = j') := by
  refine ⟨?_, color_buffer_blocks .., ?_, ?_, ?_⟩
  · intro k
    have h0 : (0 : ℚ) ≤ (rng k : ℚ) := by positivity
    have h1 : (rng k : ℚ) ≤ (RAND_MAX : ℚ) := by
      exact_mod_cast hr k
    have hRM : (RAND_MAX : ℚ) = 2147483647 := by norm_num [RAND_MAX]
    unfold brightness
    rw [hRM] at h1 ⊢
    constructor <;> nlinarith
  · intro q hq
    rw [color_buffer_blocks]
    exact flatMap_range_block _ 18 (fun k => length_quadColors ..) _ q hq
  · intro b col
    rfl
  · intro i j i' j' hj hj' h
    exact grid_index_inj hj hj' h

/-- Witness for C7 at `rng = 0`, `numTriangles = 2`. -/
theorem claim_C7_witness :
    (∀ k, 1/2 ≤ brightness (fun _ => 0) k ∧ brightness (fun _ => 0) k ≤ 1) ∧
    ((mkMeshPlane (fun _ => 0) 1 2 (fun _ => 1)).colorBufferData
      = (List.range (numQuadsPerEdge 2 * numQuadsPerEdge 2)).flatMap
          fun q => quadColors (brightness (fun _ => 0) q) (fun _ => 1)) ∧
    (∀ q, q < numQuadsPerEdge 2 * numQuadsPerEdge 2 →
      (((mkMeshPlane (fun _ => 0) 1 2 (fun _ => 1)).colorBufferData.drop
          (18 * q)).take 18)
        = quadColors (brightness (fun _ => 0) q) (fun _ => 1)) ∧
    (∀ (b : ℚ) (col : Fin 3 → ℚ),
      quadColors b col
        = (List.replicate 6 (List.ofFn fun i : Fin 3 => b * col i)).flatten) ∧
    (∀ i j i' j', j < numQuadsPerEdge 2 → j' < numQuadsPerEdge 2 →
      i * numQuadsPerEdge 2 + j = i' * numQuadsPerEdge 2 + j' →
      i = i' ∧ j = j') :=
  claim_C7 (fun _ => 0) 1 2 (fun _ => 1) (fun _ => Nat.zero_le _)

/-! ## Matrix utilities (main.cpp, second variant)

`float[16]` arrays are modelled as `Fin 4 → Fin 4 → ℚ` with the
row-major flattening `result[i * 4 + j] = M i j`.  The rotation-matrix
builders take the already-evaluated cosine and sine of the angle (the
source computes `cos(angle)` / `sin(angle)` and stores them); the
rotation by angle 0 is therefore the instance `c = 1, s = 0`. -/

/-- A 4×4 matrix: `float result[16]` with `result[i * 4 + j] = M i j`. -/
abbrev Mat4 : Type := Fin 4 → Fin 4 → ℚ

/-- The pairwise overload of `multiplyMatrices`:
`result[i * 4 + j] = Σ_k a[i * 4 + k] * b[k * 4 + j]`. -/
def multiplyMatrices (a b : Mat4) : Mat4 :=
  fun i j => ∑ k, a i k * b k j

/-- The chain overload of `multiplyMatrices` on a nonempty vector
`first :: rest`: `result := matrices[0]`, then for each later matrix
`result := multiplyMatrices(result, matrices[i])`. -/
def multiplyMatricesChain (first : Mat4) (rest : List Mat4) : Mat4 :=
  rest.foldl multiplyMatrices first

/-- `createTranslationMatrix`: identity with `result[12..14] = (x,y,z)`. -/
def createTranslationMatrix (x y z : ℚ) : Mat4 :=
  ![![1, 0, 0, 0],
    ![0, 1, 0, 0],
    ![0, 0, 1, 0],
    ![x, y, z, 1]]

/-- `createRotationMatrixX`, with `c = cos(angle)`, `s = sin(angle)`. -/
def createRotationMatrixX (c s : ℚ) : Mat4 :=
  ![![1, 0, 0, 0],
    ![0, c, -s, 0],
    ![0, s, c, 0],
    ![0, 0, 0, 1]]

/-- `createRotationMatrixY`, with `c = cos(angle)`, `s = sin(angle)`. -/
def createRotationMatrixY (c s : ℚ) : Mat4 :=
  ![![c, 0, s, 0],
    ![0, 1, 0, 0],
    ![-s, 0, c, 0],
    ![0, 0, 0, 1]]

theorem multiplyMatrices_assoc (A B C : Mat4) :
    multiplyMatrices (multiplyMatrices A B) C
      = multiplyMatrices A (multiplyMatrices B C) := by
  funext i j
  simp only [multiplyMatrices, Finset.sum_mul, Finset.mul_sum]
  rw [Finset.sum_comm]
  exact Finset.sum_congr rfl fun l _ => Finset.sum_congr rfl fun k _ => by ring

/-- C4: the chain overload applies its matrices left-to-right in the
given order (`[A, B, C] ↦ (A×B)×C`), which by associativity equals
`A×(B×C)`; chaining a translation with the identity rotation
(`createRotationMatrixY` for angle 0, i.e. cosine 1 and sine 0) yields
the translation unchanged. -/
theorem claim_C4 (A B C : Mat4) :
    multiplyMatricesChain A [B, C]
      = multiplyMatrices (multiplyMatrices A B) C ∧
    multiplyMatricesChain A [B, C]
      = multiplyMatrices A (multiplyMatrices B C) ∧
    ∀ x y z : ℚ,
      multiplyMatricesChain (createTranslationMatrix x y z)
          [createRotationMatrixY 1 0]
        = createTranslationMatrix x y z := by
  refine ⟨rfl, multiplyMatrices_assoc A B C, ?_⟩
  intro x y z
  show multiplyMatrices (createTranslationMatrix x y z)
      (createRotationMatrixY 1 0) = createTranslationMatrix x y z
  funext i j
  fin_cases i <;> fin_cases j <;>
    simp [multiplyMatrices, createTranslationMatrix, createRotationMatrixY,
      Fin.sum_univ_four, Matrix.vecHead, Matrix.vecTail]

/-! ## Projection matrix (main.cpp, `createProjectionMatrix`)

Modelled over `ℝ`, with the float literal
`Pi = 3.14159265358979323846f` idealised as the real `π` (the claim is
stated "to floating-point tolerance"). -/

/-- `degreesToRadians`: `degrees * Pi / 180.0f`. -/
noncomputable def degreesToRadians (degrees : ℝ) : ℝ :=
  degrees * Real.pi / 180

/-- `createProjectionMatrix`: `f = 1 / tan(radians(fieldOfView) / 2)`,
row-major entries `[f/aspect, 0,0,0, 0,f,0,0, 0,0,(far+near)/(near-far),-1,
0,0,2·far·near/(near-far),0]`. -/
noncomputable def createProjectionMatrix
    (fieldOfView aspectRatio nearPlane farPlane : ℝ) : Fin 4 → Fin 4 → ℝ :=
  let f := 1 / Real.tan (degreesToRadians fieldOfView / 2)
  ![![f / aspectRatio, 0, 0, 0],
    ![0, f, 0, 0],
    ![0, 0, (farPlane + nearPlane) / (nearPlane - farPlane), -1],
    ![0, 0, 2 * farPlane * nearPlane / (nearPlane - farPlane), 0]]

/-- C5: at `fieldOfView = 90°`, `aspectRatio = 1`, `nearPlane = 0.1`,
`farPlane = 100`, the projection matrix has entry 0 = 1, entry 5 = 1,
entry 10 = (far+near)/(near-far), entry 11 = -1,
entry 14 = 2·far·near/(near-far), entry 15 = 0, and all other entries 0
(under the row-major flattening `entry (4i+j) = M i j`). -/
theorem claim_C5 :
    createProjectionMatrix 90 1 (1/10) 100
      = ![![1, 0, 0, 0],
          ![0, 1, 0, 0],
          ![0, 0, (100 + 1/10) / ((1/10 : ℝ) - 100), -1],
          ![0, 0, 2 * 100 * (1/10) / ((1/10 : ℝ) - 100), 0]] := by
  have hang : degreesToRadians 90 / 2 = Real.pi / 4 := by
    unfold degreesToRadians; ring
  unfold createProjectionMatrix
  rw [hang, Real.tan_pi_div_four]
  norm_num

/-! ## Command line and `main` control flow

`main` parses the four optional flags (a flag in last position, with no
following value, is ignored; `std::stoi`/`std::stod` throwing on a
malformed value is modelled as `none`), creates the window, and only
then — when `fullScreenDisplay >= 0` — enumerates monitors and
validates the index.  The environment's responses (window creation
success, monitor count, GLEW status, shader build status) are the
fields of `Env`. -/

/-- Digit-run accumulator of the `std::stoi` model: consume leading
digits, stop at the first non-digit; `none` if no digit was seen. -/
def stoiCore : List Char → ℕ → Bool → Option ℕ
  | [], acc, seen => if seen then some acc else none
  | c :: rest, acc, seen =>
    if c.isDigit then stoiCore rest (acc * 10 + (c.toNat - 48)) true
    else if seen then some acc else none

/-- Model of `std::stoi`: skip leading whitespace, optional sign, then
a nonempty digit run (conversion stops at the first non-digit);
`none` models the `std::invalid_argument` exception. -/
def stoi (s : String) : Option Int :=
  match s.toList.dropWhile Char.isWhitespace with
  | '-' :: rest => (stoiCore rest 0 false).map fun n => -(n : Int)
  | '+' :: rest => (stoiCore rest 0 false).map fun n => (n : Int)
  | cs => (stoiCore cs 0 false).map fun n => (n : Int)

/-- Digit-run value, for the `std::stod` model. -/
def digitsVal (cs : List Char) : ℕ :=
  cs.foldl (fun a c => a * 10 + (c.toNat - 48)) 0

/-- Model of `std::stod` on decimal input: optional sign, integer
digits, optional fraction digits; at least one digit required
(exponent and hex forms, which no claim exercises, are not modelled). -/
def stod (s : String) : Option ℚ :=
  let cs := s.toList.dropWhile Char.isWhitespace
  let signed : ℚ × List Char :=
    match cs with
    | '-' :: r => (-1, r)
    | '+' :: r => (1, r)
    | r => (1, r)
  let intPart := signed.2.takeWhile Char.isDigit
  let rest := signed.2.dropWhile Char.isDigit
  let fracPart : List Char :=
    match rest with
    | '.' :: r => r.takeWhile Char.isDigit
    | _ => []
  if intPart = [] ∧ fracPart = [] then none
  else some (signed.1 *
    ((digitsVal intPart : ℚ) + (digitsVal fracPart : ℚ) / 10 ^ fracPart.length))

/-- The four configuration values of `main`. -/
structure Config where
  fullScreenDisplay : Int
  width : Int
  height : Int
  fps : ℚ
  deriving DecidableEq

/-- The initial values: `fullScreenDisplay = 1`, `width = 7680`,
`height = 4320`, `fps = 60.0`. -/
def defaultConfig : Config :=
  { fullScreenDisplay := 1, width := 7680, height := 4320, fps := 60 }

/-- The argument loop of `main`: each recognised flag followed by a
value consumes both (the value parsed with `stoi`/`stod`, whose
failure aborts the process); anything else — including a recognised
flag in last position — is skipped. -/
def parseArgs : Config → List String → Option Config
  | cfg, [] => some cfg
  | cfg, [_] => some cfg
  | cfg, arg :: v :: rest =>
    if arg = "--fullScreenDisplay" then
      match stoi v with
      | some n => parseArgs { cfg with fullScreenDisplay := n } rest
      | none => none
    else if arg = "--width" then
      match stoi v with
      | some n => parseArgs { cfg with width := n } rest
      | none => none
    else if arg = "--height" then
      match stoi v with
      | some n => parseArgs { cfg with height := n } rest
      | none => none
    else if arg = "--fps" then
      match stod v with
      | some q => parseArgs { cfg with fps := q } rest
      | none => none
    else parseArgs cfg (v :: rest)

/-- The environment's responses to `main`'s system calls. -/
structure Env where
  windowOk : Bool
  monitorCount : ℕ
  glewOk : Bool
  shadersOk : Bool
  deriving DecidableEq

/-- Observable outcome of a run of `main`: the exit code (`none`
models termination by an uncaught exception), whether
`glfwCreateWindow` succeeded before termination, whether
`glfwGetMonitors` was called, and whether `glfwSetWindowMonitor`
engaged full-screen mode. -/
structure RunTrace where
  exitCode : Option ℕ
  windowCreated : Bool
  monitorsQueried : Bool
  fullscreenEngaged : Bool
  deriving DecidableEq

/-- The tail of `main` after window/monitor setup: GLEW failure exits
with 4; a shader build failure throws (uncaught); otherwise the render
loop runs until the user closes the window and `main` returns 0. -/
def afterMonitorSetup (env : Env) (queried engaged : Bool) : RunTrace :=
  if !env.glewOk then ⟨some 4, true, queried, engaged⟩
  else if !env.shadersOk then ⟨none, true, queried, engaged⟩
  else ⟨some 0, true, queried, engaged⟩

/-- `main` from window creation on: the window is created first; only
then, when `fullScreenDisplay >= 0`, are monitors enumerated and the
index validated (exit 2 when none, exit 3 when out of range). -/
def mainRun (env : Env) (cfg : Config) : RunTrace :=
  if !env.windowOk then ⟨some 1, false, false, false⟩
  else if 0 ≤ cfg.fullScreenDisplay then
    if env.monitorCount = 0 then ⟨some 2, true, true, false⟩
    else if (env.monitorCount : Int) ≤ cfg.fullScreenDisplay then
      ⟨some 3, true, true, false⟩
    else afterMonitorSetup env true true
  else afterMonitorSetup env false false

/-- A whole run of `main`: argument parsing happens before any window
is created, so a parse failure terminates with nothing created. -/
def mainFromArgs (env : Env) (args : List String) : RunTrace :=
  match parseArgs defaultConfig args with
  | some cfg => mainRun env cfg
  | none => ⟨none, false, false, false⟩

/-- C6: complete characterisation of the exit codes: 0 on success /
normal close, 1 iff window creation fails, 2 iff full-screen was
requested but no monitors were detected, 3 iff the requested monitor
index is out of range, 4 iff GLEW initialisation fails — each code
only under its condition. -/
theorem claim_C6 (env : Env) (cfg : Config) :
    ((mainRun env cfg).exitCode = some 0 ↔
      (env.windowOk = true ∧
       (cfg.fullScreenDisplay < 0 ∨
         (0 < env.monitorCount ∧
           cfg.fullScreenDisplay < (env.monitorCount : Int))) ∧
       env.glewOk = true ∧ env.shadersOk = true)) ∧
    ((mainRun env cfg).exitCode = some 1 ↔ env.windowOk = false) ∧
    ((mainRun env cfg).exitCode = some 2 ↔
      (env.windowOk = true ∧ 0 ≤ cfg.fullScreenDisplay ∧
        env.monitorCount = 0)) ∧
    ((mainRun env cfg).exitCode = some 3 ↔
      (env.windowOk = true ∧ 0 ≤ cfg.fullScreenDisplay ∧
        0 < env.monitorCount ∧
        (env.monitorCount : Int) ≤ cfg.fullScreenDisplay)) ∧
    ((mainRun env cfg).exitCode = some 4 ↔
      (env.windowOk = true ∧
       (cfg.fullScreenDisplay < 0 ∨
         (0 < env.monitorCount ∧
           cfg.fullScreenDisplay < (env.monitorCount : Int))) ∧
       env.glewOk = false)) := by
  rcases env with ⟨w, mc, g, sh⟩
  simp only [mainRun, afterMonitorSetup]
  cases w <;> cases g <;> cases sh <;>
    simp <;> split_ifs <;> simp_all <;> omega

/-- C3 counterexample: with one monitor present and
`--fullScreenDisplay 5`, the process does exit with code 3, but the
window has already been created at that point — the claim's "without
creating a window" is false. -/
theorem claim_C3_counterexample :
    (mainFromArgs ⟨true, 1, true, true⟩
      ["--fullScreenDisplay", "5"]).exitCode = some 3 ∧
    (mainFromArgs ⟨true, 1, true, true⟩
      ["--fullScreenDisplay", "5"]).windowCreated = true := by
  decide

/-- C3 amended: whenever window creation succeeds, at least one
monitor is enumerated, and the supplied index is ≥ the monitor count,
the process exits with the distinct code 3 — but only after the window
has been created (window creation precedes monitor validation). -/
theorem claim_C3_amended (env : Env) (cfg : Config)
    (hw : env.windowOk = true) (hm : 0 < env.monitorCount)
    (hi : (env.monitorCount : Int) ≤ cfg.fullScreenDisplay) :
    (mainRun env cfg).exitCode = some 3 ∧
    (mainRun env cfg).windowCreated = true := by
  have h0 : (0 : Int) ≤ cfg.fullScreenDisplay := by
    have : (1 : Int) ≤ (env.monitorCount : Int) := by exact_mod_cast hm
    omega
  simp [mainRun, hw, h0, hi, Nat.pos_iff_ne_zero.mp hm]

/-- Witness for C3's amended theorem: one monitor, index 5. -/
theorem claim_C3_amended_witness :
    (mainRun ⟨true, 1, true, true⟩ ⟨5, 7680, 4320, 60⟩).exitCode = some 3 ∧
    (mainRun ⟨true, 1, true, true⟩ ⟨5, 7680, 4320, 60⟩).windowCreated = true :=
  claim_C3_amended ⟨true, 1, true, true⟩ ⟨5, 7680, 4320, 60⟩
    rfl (by decide) (by decide)

theorem parseArgs_defaults (cfg : Config) (args : List String) :
    ∀ cfg', parseArgs cfg args = some cfg' →
      ("--fullScreenDisplay" ∉ args →
        cfg'.fullScreenDisplay = cfg.fullScreenDisplay) ∧
      ("--width" ∉ args → cfg'.width = cfg.width) ∧
      ("--height" ∉ args → cfg'.height = cfg.height) ∧
      ("--fps" ∉ args → cfg'.fps = cfg.fps) := by
  induction cfg, args using parseArgs.induct with
  | case1 cfg =>
    intro cfg' h
    simp only [parseArgs, Option.some.injEq] at h
    subst h
    simp
  | case2 cfg x =>
    intro cfg' h
    simp only [parseArgs, Option.some.injEq] at h
    subst h
    simp
  | case3 cfg v rest n hstoi ih =>
    intro cfg' h
    simp only [parseArgs, hstoi, if_pos] at h
    obtain ⟨h1, h2, h3, h4⟩ := ih cfg' h
    refine ⟨?_, ?_, ?_, ?_⟩ <;> intro hm
    · exact absurd (List.mem_cons_self _ _) hm
    · simpa using h2 fun hx => hm (by simp [hx])
    · simpa using h3 fun hx => hm (by simp [hx])
    · simpa using h4 fun hx => hm (by simp [hx])
  | case4 cfg v rest hstoi =>
    intro cfg' h
    simp [parseArgs, hstoi] at h
  | case5 cfg v rest n hstoi hne1 ih =>
    intro cfg' h
    simp only [parseArgs, hstoi, if_neg hne1, if_pos] at h
    obtain ⟨h1, h2, h3, h4⟩ := ih cfg' h
    refine ⟨?_, ?_, ?_, ?_⟩ <;> intro hm
    · simpa using h1 fun hx => hm (by simp [hx])
    · exact absurd (List.mem_cons_self _ _) hm
    · simpa using h3 fun hx => hm (by simp [hx])
    · simpa using h4 fun hx => hm (by simp [hx])
  | case6 cfg v rest hstoi hne1 =>
    intro cfg' h
    simp [parseArgs, hstoi, hne1] at h
  | case7 cfg v rest n hstoi hne1 hne2 ih =>
    intro cfg' h
    simp only [parseArgs, hstoi, if_neg hne1, if_neg hne2, if_pos] at h
    obtain ⟨h1, h2, h3, h4⟩ := ih cfg' h
    refine ⟨?_, ?_, ?_, ?_⟩ <;> intro hm
    · simpa using h1 fun hx => hm (by simp [hx])
    · simpa using h2 fun hx => hm (by simp [hx])
    · exact absurd (List.mem_cons_self _ _) hm
    · simpa using h4 fun hx => hm (by simp [hx])
  | case8 cfg v rest hstoi hne1 hne2 =>
    intro cfg' h
    simp [parseArgs, hstoi, hne1, hne2] at h
  | case9 cfg v rest q hstod hne1 hne2 hne3 ih =>
    intro cfg' h
    simp only [parseArgs, hstod, if_neg hne1, if_neg hne2, if_neg hne3,
      if_pos] at h
    obtain ⟨h1, h2, h3, h4⟩ := ih cfg' h
    refine ⟨?_, ?_, ?_, ?_⟩ <;> intro hm
    · simpa using h1 fun hx => hm (by simp [hx])
    · simpa using h2 fun hx => hm (by simp [hx])
    · simpa using h3 fun hx => hm (by simp [hx])
    · exact absurd (List.mem_cons_self _ _) hm
  | case10 cfg v rest hstod hne1 hne2 hne3 =>
    intro cfg' h
    simp [parseArgs, hstod, hne1, hne2, hne3] at h
  | case11 cfg arg v rest hne1 hne2 hne3 hne4 ih =>
    intro cfg' h
    simp only [parseArgs, if_neg hne1, if_neg hne2, if_neg hne3,
      if_neg hne4] at h
    obtain ⟨h1, h2, h3, h4⟩ := ih cfg' h
    refine ⟨?_, ?_, ?_, ?_⟩ <;> intro hm
    · exact h1 fun hx => hm (List.mem_cons_of_mem _ hx)
    · exact h2 fun hx => hm (List.mem_cons_of_mem _ hx)
    · exact h3 fun hx => hm (List.mem_cons_of_mem _ hx)
    · exact h4 fun hx => hm (List.mem_cons_of_mem _ hx)

/-- C8: whenever a flag does not appear on the command line, the
corresponding configuration value keeps its default
(`fullScreenDisplay = 1`, `width = 7680`, `height = 4320`,
`fps = 60.0`); and `--fullScreenDisplay -1` parses to `-1` and selects
windowed mode, in which no monitor is looked up and full-screen is
never engaged. -/
theorem claim_C8 :
    (∀ (args : List String) (cfg : Config),
      parseArgs defaultConfig args = some cfg →
      ("--fullScreenDisplay" ∉ args → cfg.fullScreenDisplay = 1) ∧
      ("--width" ∉ args → cfg.width = 7680) ∧
      ("--height" ∉ args → cfg.height = 4320) ∧
      ("--fps" ∉ args → cfg.fps = 60)) ∧
    parseArgs defaultConfig ["--fullScreenDisplay", "-1"]
      = some { defaultConfig with fullScreenDisplay := -1 } ∧
    (∀ env : Env,
      (mainFromArgs env ["--fullScreenDisplay", "-1"]).monitorsQueried
        = false ∧
      (mainFromArgs env ["--fullScreenDisplay", "-1"]).fullscreenEngaged
        = false) := by
  have hp : parseArgs defaultConfig ["--fullScreenDisplay", "-1"]
      = some { defaultConfig with fullScreenDisplay := -1 } := by decide
  refine ⟨?_, hp, ?_⟩
  · intro args cfg h
    simpa [defaultConfig] using parseArgs_defaults defaultConfig args cfg h
  · intro env
    simp only [mainFromArgs, hp, mainRun, afterMonitorSetup]
    norm_num [defaultConfig]
    split_ifs <;> simp_all

/-- Witness for C8: the empty command line parses to the defaults. -/
theorem claim_C8_witness :
    ("--fullScreenDisplay" ∉ ([] : List String) →
      defaultConfig.fullScreenDisplay = 1) ∧
    ("--width" ∉ ([] : List String) → defaultConfig.width = 7680) ∧
    ("--height" ∉ ([] : List String) → defaultConfig.height = 4320) ∧
    ("--fps" ∉ ([] : List String) → defaultConfig.fps = 60) :=
  claim_C8.1 [] defaultConfig rfl

/-! ## Lazy GPU-resource initialisation (`MeshPlane::init` / `draw`)

The GL side effects of a `MeshPlane` are modelled by a state carrying
the `initialized` flag and the number of `glGenBuffers`-allocated
buffer objects.  `init()` allocates the two buffers (vertex and
colour) and sets the flag only when the flag is still clear; `draw()`
begins by calling `init()` and allocates nothing itself; the
destructor deletes the two buffers exactly when `initialized`. -/

/-- The public operations callable on a live `MeshPlane`. -/
inductive MeshOp
  | init
  | draw
  deriving DecidableEq

/-- GL-side state of one `MeshPlane`. -/
structure MeshGLState where
  initialized : Bool
  allocations : ℕ
  deriving DecidableEq

/-- Freshly constructed object: `initialized = false`, no buffers. -/
def initialMeshGLState : MeshGLState := ⟨false, 0⟩

/-- `MeshPlane::init`: on the first call generate the vertex buffer
and the colour buffer (two allocations) and set `initialized`; on
every later call do nothing. -/
def initStep (s : MeshGLState) : MeshGLState :=
  if s.initialized then s else ⟨true, s.allocations + 2⟩

/-- `MeshPlane::draw`: calls `init()` first; the rest of the body
binds and draws but allocates nothing. -/
def drawStep (s : MeshGLState) : MeshGLState := initStep s

def applyOp (s : MeshGLState) : MeshOp → MeshGLState
  | MeshOp.init => initStep s
  | MeshOp.draw => drawStep s

/-- Run a call sequence from the freshly constructed state. -/
def runOps (s : MeshGLState) (ops : List MeshOp) : MeshGLState :=
  ops.foldl applyOp s

/-- `MeshPlane::~MeshPlane`: deletes the two buffers iff initialised. -/
def destructorFrees (s : MeshGLState) : ℕ :=
  if s.initialized then 2 else 0

theorem runOps_saturated (ops : List MeshOp) :
    runOps ⟨true, 2⟩ ops = ⟨true, 2⟩ := by
  induction ops with
  | nil => rfl
  | cons op rest ih =>
    have h : applyOp ⟨true, 2⟩ op = ⟨true, 2⟩ := by
      cases op <;> rfl
    simp only [runOps, List.foldl_cons, h]
    exact ih

/-- C9: resources are allocated lazily and exactly once: after any
nonempty call sequence the state is initialised with exactly the two
buffers allocated (the first `init()`/`draw()` allocates, every later
call changes nothing), and the destructor frees the two buffers iff
the object was initialised. -/
theorem claim_C9 (ops : List MeshOp) :
    ((runOps initialMeshGLState ops).initialized = true ↔ ops ≠ []) ∧
    ((runOps initialMeshGLState ops).allocations
      = if ops = [] then 0 else 2) ∧
    (applyOp initialMeshGLState MeshOp.init = ⟨true, 2⟩) ∧
    (ops ≠ [] → ∀ op, applyOp (runOps initialMeshGLState ops) op
      = runOps initialMeshGLState ops) ∧
    (destructorFrees (runOps initialMeshGLState ops) = 2 ↔
      (runOps initialMeshGLState ops).initialized = true) ∧
    (destructorFrees (runOps initialMeshGLState ops) = 0 ↔
      (runOps initialMeshGLState ops).initialized = false) := by
  have hrun : ops ≠ [] → runOps initialMeshGLState ops = ⟨true, 2⟩ := by
    intro hne
    match ops with
    | [] => exact absurd rfl hne
    | op :: rest =>
      have h : applyOp initialMeshGLState op = ⟨true, 2⟩ := by
        cases op <;> rfl
      simp only [runOps, List.foldl_cons, h]
      exact runOps_saturated rest
  match ops with
  | [] =>
    refine ⟨by simp [runOps, initialMeshGLState], by simp [runOps, initialMeshGLState], rfl, ?_, ?_, ?_⟩
    · intro h; exact absurd rfl h
    · simp [runOps, initialMeshGLState, destructorFrees]
    · simp [runOps, initialMeshGLState, destructorFrees]
  | op :: rest =>
    have h2 := hrun (by simp)
    rw [h2]
    refine ⟨by simp, by simp, rfl, ?_, by simp [destructorFrees], by simp [destructorFrees]⟩
    intro _ op'
    cases op' <;> rfl

/-- Witness for C9 at the call sequence `[draw]`. -/
theorem claim_C9_witness :
    ((runOps initialMeshGLState [MeshOp.draw]).initialized = true ↔
      [MeshOp.draw] ≠ []) ∧
    ((runOps initialMeshGLState [MeshOp.draw]).allocations
      = if [MeshOp.draw] = ([] : List MeshOp) then 0 else 2) ∧
    (applyOp initialMeshGLState MeshOp.init = ⟨true, 2⟩) ∧
    ([MeshOp.draw] ≠ ([] : List MeshOp) → ∀ op,
      applyOp (runOps initialMeshGLState [MeshOp.draw]) op
        = runOps initialMeshGLState [MeshOp.draw]) ∧
    (destructorFrees (runOps initialMeshGLState [MeshOp.draw]) = 2 ↔
      (runOps initialMeshGLState [MeshOp.draw]).initialized = true) ∧
    (destructorFrees (runOps initialMeshGLState [MeshOp.draw]) = 0 ↔
      (runOps initialMeshGLState [MeshOp.draw]).initialized = false) :=
  claim_C9 [MeshOp.draw]

/-! ## Cube variant of the mesh generation

The cube variant is described by the spec (§4.4) but its code is not
under `src/` (both program variants in `main.cpp` only build the
single-plane mesh); it is therefore modelled from the spec below. -/

/-- A 3D point/vector, over `ℚ`. -/
abbrev V3 : Type := ℚ × ℚ × ℚ

/-- Euclidean dot product on `V3`. -/
def dot3 (u v : V3) : ℚ :=
  u.1 * v.1 + u.2.1 * v.2.1 + u.2.2 * v.2.2

/-- Modelled from the spec: the fixed per-face coordinate
swizzle/sign table of the cube variant, which is absent from `src/`.
The reference face is the tessellated plane lifted to `z = scale`
(outward normal `+z`); face `k` is obtained from it by the `k`-th
axis permutation with sign flips, producing in order the `+z`, `-z`,
`+x`, `-x`, `+y`, `-y` faces of the cube `[-scale, scale]³`. -/
def faceTransform : Fin 6 → V3 → V3
  | 0, p => (p.1, p.2.1, p.2.2)
  | 1, p => (p.1, -p.2.1, -p.2.2)
  | 2, p => (p.2.2, p.2.1, -p.1)
  | 3, p => (-p.2.2, p.2.1, p.1)
  | 4, p => (p.1, p.2.2, -p.2.1)
  | 5, p => (p.1, -p.2.2, p.2.1)

/-- The outward normal of face `k`: the image of the reference face's
outward normal `(0, 0, 1)` under the face's (linear) swizzle. -/
def faceNormal (k : Fin 6) : V3 := faceTransform k (0, 0, 1)

/-- Modelled from the spec: the per-face constant colour tints of the
cube variant (red, green, blue, cyan, magenta, yellow), absent from
`src/`. -/
def faceTint : Fin 6 → V3
  | 0 => (1, 0, 0)
  | 1 => (0, 1, 0)
  | 2 => (0, 0, 1)
  | 3 => (0, 1, 1)
  | 4 => (1, 0, 1)
  | 5 => (1, 1, 0)

theorem faceNormal_dot_image (s x y : ℚ) (k : Fin 6) :
    dot3 (faceNormal k) (faceTransform k (x, y, s)) = s := by
  fin_cases k <;> simp [dot3, faceNormal, faceTransform]

theorem other_normal_dot_image (s x y : ℚ) (hs : 0 < s)
    (hx : -s < x) (hx2 : x < s) (hy : -s < y) (hy2 : y < s)
    (k k' : Fin 6) (hne : k ≠ k') :
    dot3 (faceNormal k') (faceTransform k (x, y, s)) ≠ s := by
  fin_cases k <;> fin_cases k' <;>
    simp_all [dot3, faceNormal, faceTransform] <;> linarith

/-- C2: the cube variant (modelled from the spec) derives the six
faces of the cube from one reference face by a fixed per-face
swizzle/sign table with per-face tints, such that: the swizzles are
rigid (they preserve the dot product); every face's outward normal
points away from the cube centre (`normal · point = scale > 0` on the
whole face); the six faces are spatially disjoint (distinct faces
never share an interior point); and the six tints are pairwise
distinct. -/
theorem claim_C2 (s x y x' y' : ℚ) (hs : 0 < s)
    (hx : -s < x) (hx2 : x < s) (hy : -s < y) (hy2 : y < s)
    (_hx' : -s < x') (_hx2' : x' < s) (_hy' : -s < y') (_hy2' : y' < s) :
    (∀ k : Fin 6, dot3 (faceNormal k) (faceTransform k (x, y, s)) = s) ∧
    (∀ (k : Fin 6) (u v : V3),
      dot3 (faceTransform k u) (faceTransform k v) = dot3 u v) ∧
    (∀ k k' : Fin 6, k ≠ k' →
      faceTransform k (x, y, s) ≠ faceTransform k' (x', y', s)) ∧
    (∀ k k' : Fin 6, k ≠ k' → faceTint k ≠ faceTint k') := by
  refine ⟨fun k => faceNormal_dot_image s x y k, ?_, ?_, by decide⟩
  · intro k u v
    fin_cases k <;> simp [dot3, faceTransform] <;> ring
  · intro k k' hne heq
    have h1 : dot3 (faceNormal k') (faceTransform k' (x', y', s)) = s :=
      faceNormal_dot_image s x' y' k'
    rw [← heq] at h1
    exact other_normal_dot_image s x y hs hx hx2 hy hy2 k k' hne h1

/-- Witness for C2 at `scale = 1` and interior points at the face
centres. -/
theorem claim_C2_witness :
    (∀ k : Fin 6, dot3 (faceNormal k) (faceTransform k (0, 0, 1)) = 1) ∧
    (∀ (k : Fin 6) (u v : V3),
      dot3 (faceTransform k u) (faceTransform k v) = dot3 u v) ∧
    (∀ k k' : Fin 6, k ≠ k' →
      faceTransform k (0, 0, 1) ≠ faceTransform k' (0, 0, 1)) ∧
    (∀ k k' : Fin 6, k ≠ k' → faceTint k ≠ faceTint k') :=
  claim_C2 1 0 0 0 0 (by norm_num) (by norm_num) (by norm_num)
    (by norm_num) (by norm_num) (by norm_num) (by norm_num)
    (by norm_num) (by norm_num)

end Tearing
